import Mathlib

/-
Verification of the event-subscription and transaction-decoding core of the
gohfc client SDK (src/event.go).

Modelling conventions for the shallow embedding:

* Protobuf byte strings are represented by their parse outcome at the one
  message type the pipeline parses them with: `PB A` is either `ok a` (the
  bytes unmarshal to `a`) or `fail a` (unmarshal reports an error, leaving the
  partially-filled residual message `a`; a garbage byte string that fails
  immediately leaves the freshly allocated zero message, i.e. `fail {}`).
  An absent bytes field (nil / empty slice) unmarshals successfully to the
  zero message, so the default of every `PB` field is `ok {}`.
* Go pointer-typed message fields are `Option`; a selector applied to a nil
  pointer is a run-time panic, modelled by the `Except GPanic` result of the
  functions that perform such accesses (`GPanic.nilDeref`).  Slice indexing
  out of range is `GPanic.indexOutOfRange`.  A `GPanic` kills the goroutine:
  nothing after it runs and the connection is never closed.
* Errors stored in `BlockEventResponse.error` are identified by the stage
  that produced them (`DErr`); the Go code stores the library error value,
  which the claims only inspect for presence and provenance.
* `crypto.Sign`, `proto.Marshal` of the registration messages and
  `client.Send` are external effects; `register` receives them as an
  explicit environment of functions (`RegisterEnv`).
-/

namespace Gohfc

/-- Outcome of unmarshalling a byte string at message type `A`:
`ok a` on success, `fail a` on a reported unmarshal error with residual
partially-filled message `a`. -/
inductive PB (A : Type) where
  | ok : A → PB A
  | fail : A → PB A
deriving DecidableEq

/-- Run-time panics of the Go code: nil-pointer dereference and
slice index out of range. -/
inductive GPanic where
  | nilDeref
  | indexOutOfRange
deriving DecidableEq

/-- Provenance of an error stored in a decoded record, one tag per
unmarshal site of the pipeline plus the terminal stream-receive error. -/
inductive DErr where
  | envUnmarshal
  | payloadUnmarshal
  | headerUnmarshal
  | extUnmarshal
  | txUnmarshal
  | capUnmarshal
  | proposalUnmarshal
  | invocationUnmarshal
  | proposalRespUnmarshal
  | ccActionUnmarshal
  | ccEventUnmarshal
  | streamRecv
deriving DecidableEq

/-- peer.ChaincodeEvent: fields EventName and Payload consumed by the code. -/
structure ChaincodeEvent where
  eventName : String := ""
  payload : List Nat := []
deriving DecidableEq

/-- peer.ChaincodeAction: field Events (bytes, parsed as ChaincodeEvent). -/
structure ChaincodeAction where
  events : PB ChaincodeEvent := .ok {}
deriving DecidableEq

/-- peer.ProposalResponsePayload: field Extension (bytes, parsed as
ChaincodeAction). -/
structure ProposalResponsePayload where
  extension : PB ChaincodeAction := .ok {}
deriving DecidableEq

/-- peer.ChaincodeInput: field Args. -/
structure ChaincodeInput where
  args : List (List Nat) := []
deriving DecidableEq

/-- peer.ChaincodeSpec: field Input (pointer). -/
structure ChaincodeSpec where
  input : Option ChaincodeInput := none
deriving DecidableEq

/-- peer.ChaincodeInvocationSpec: field ChaincodeSpec (pointer). -/
structure ChaincodeInvocationSpec where
  chaincodeSpec : Option ChaincodeSpec := none
deriving DecidableEq

/-- peer.ChaincodeProposalPayload: field Input (bytes, parsed as
ChaincodeInvocationSpec). -/
structure ChaincodeProposalPayload where
  input : PB ChaincodeInvocationSpec := .ok {}
deriving DecidableEq

/-- peer.ChaincodeEndorsedAction: field ProposalResponsePayload (bytes). -/
structure ChaincodeEndorsedAction where
  proposalResponsePayload : PB ProposalResponsePayload := .ok {}
deriving DecidableEq

/-- peer.ChaincodeActionPayload: fields ChaincodeProposalPayload (bytes) and
Action (pointer). -/
structure ChaincodeActionPayload where
  chaincodeProposalPayload : PB ChaincodeProposalPayload := .ok {}
  action : Option ChaincodeEndorsedAction := none
deriving DecidableEq

/-- peer.TransactionAction: field Payload (bytes, parsed as
ChaincodeActionPayload). -/
structure TransactionAction where
  payload : PB ChaincodeActionPayload := .ok {}
deriving DecidableEq

/-- peer.Transaction: field Actions. -/
structure Transaction where
  actions : List TransactionAction := []
deriving DecidableEq

/-- peer.ChaincodeID: fields Name and Version. -/
structure ChaincodeId where
  name : String := ""
  version : String := ""
deriving DecidableEq

/-- peer.ChaincodeHeaderExtension: field ChaincodeId (pointer). -/
structure ChaincodeHeaderExtension where
  chaincodeId : Option ChaincodeId := none
deriving DecidableEq

/-- common.ChannelHeader: fields Type, TxId, ChannelId and Extension
(bytes, parsed as ChaincodeHeaderExtension). -/
structure ChannelHeader where
  type : Int := 0
  txId : String := ""
  channelId : String := ""
  extension : PB ChaincodeHeaderExtension := .ok {}
deriving DecidableEq

/-- common.Header: field ChannelHeader (bytes, parsed as ChannelHeader). -/
structure Header where
  channelHeader : PB ChannelHeader := .ok {}
deriving DecidableEq

/-- common.Payload: fields Header (pointer) and Data (bytes, parsed as
Transaction when the header type is endorser-transaction). -/
structure Payload where
  header : Option Header := none
  data : PB Transaction := .ok {}
deriving DecidableEq

/-- common.Envelope: field Payload (bytes, parsed as Payload). -/
structure Envelope where
  payload : PB Payload := .ok {}
deriving DecidableEq

/-- CCEvent of src/event.go. -/
structure CCEvent where
  eventName : String
  eventPayload : List Nat
deriving DecidableEq

/-- BlockEventResponse of src/event.go; all fields start at their Go zero
value, as in `response := BlockEventResponse{}`. -/
structure BlockEventResponse where
  error : Option DErr := none
  isVaild : Bool := false
  blockHeight : Nat := 0
  txIndex : Nat := 0
  txID : String := ""
  channelName : String := ""
  chainCodeName : String := ""
  chainCodeVersion : String := ""
  status : Int := 0
  chainCodeInput : List (List Nat) := []
  ccEvents : List CCEvent := []
deriving DecidableEq

/-- common.BlockMetadataIndex_TRANSACTIONS_FILTER of the fabric protos. -/
def BlockMetadataIndex_TRANSACTIONS_FILTER : Nat := 2

/-- common.HeaderType_ENDORSER_TRANSACTION of the fabric protos. -/
def HeaderType_ENDORSER_TRANSACTION : Int := 3

/-- Lines 161-171 of src/event.go: the base fields written once stages 1-4
are past.  `err2` is the error left by stage 2 (payload unmarshal), `fb` the
validation-flag byte read through TxValidationFlags at line 161-162, `sb`
the byte read from `metadata[2][idx]` at line 171. -/
def stage5Record (err2 : Option DErr) (blockNum idx : Nat)
    (header : ChannelHeader) (ex : ChaincodeHeaderExtension)
    (fb sb : Nat) : BlockEventResponse :=
  { error := err2
    isVaild := fb == 0
    blockHeight := blockNum
    txIndex := idx
    txID := header.txId
    channelName := header.channelId
    chainCodeName := match ex.chaincodeId with
      | some cid => cid.name
      | none => ""
    chainCodeVersion := match ex.chaincodeId with
      | some cid => cid.version
      | none => ""
    status := Int.ofNat sb }

/-- Lines 172-225 of src/event.go: the endorser-transaction detail pipeline,
run on `payload.Data` with the stage-5 record already in `response`.
`tx.Actions[0]` on an empty action list is an out-of-range panic;
`cis.GetChaincodeSpec().GetInput().Args` dereferences a nil pointer when the
spec or its input is absent, and `chainCodeActionPayload.Action` is
dereferenced without a nil check. -/
def decodeStage6 (response : BlockEventResponse) (pdata : PB Transaction) :
    Except GPanic BlockEventResponse :=
  match pdata with
  | .fail _ => .ok { response with error := some DErr.txUnmarshal }
  | .ok tx =>
    match tx.actions with
    | [] => .error GPanic.indexOutOfRange
    | a0 :: _ =>
      match a0.payload with
      | .fail _ => .ok { response with error := some DErr.capUnmarshal }
      | .ok cap =>
        match cap.chaincodeProposalPayload with
        | .fail _ => .ok { response with error := some DErr.proposalUnmarshal }
        | .ok cpp =>
          match cpp.input with
          | .fail _ => .ok { response with error := some DErr.invocationUnmarshal }
          | .ok cis =>
            match cis.chaincodeSpec.bind ChaincodeSpec.input with
            | none => .error GPanic.nilDeref
            | some inp =>
              let response := { response with chainCodeInput := inp.args }
              match cap.action with
              | none => .error GPanic.nilDeref
              | some act =>
                match act.proposalResponsePayload with
                | .fail _ => .ok { response with error := some DErr.proposalRespUnmarshal }
                | .ok prp =>
                  match prp.extension with
                  | .fail _ => .ok { response with error := some DErr.ccActionUnmarshal }
                  | .ok ca =>
                    match ca.events with
                    | .fail _ => .ok { response with error := some DErr.ccEventUnmarshal }
                    | .ok ev =>
                      .ok { response with
                        ccEvents := response.ccEvents ++
                          [{ eventName := ev.eventName, eventPayload := ev.payload }] }

/-- Lines 152-226 of src/event.go, entered with the stage-2 error (if any)
in `err2` and the payload the failed or successful stage-2 unmarshal left
behind.  Stage 3 reads `payload.Header.ChannelHeader` through an unchecked
pointer: a nil `Header` is a nil-pointer panic.  Stages 3 and 4 return on
failure with only the error set (overwriting a stage-2 error).  Stage 5
reads `metadata[TRANSACTIONS_FILTER][idx]` through TxValidationFlags.IsValid
(true exactly when the byte is TxValidationCode_VALID = 0) and, separately,
`metadata[2][idx]` for Status. -/
def afterEnvelope (err2 : Option DErr) (payload : Payload) (blockNum idx : Nat)
    (metadata : List (List Nat)) : Except GPanic BlockEventResponse :=
  match payload.header with
  | none => .error GPanic.nilDeref
  | some hdr =>
    match hdr.channelHeader with
    | .fail _ => .ok { error := some DErr.headerUnmarshal }
    | .ok header =>
      match header.extension with
      | .fail _ => .ok { error := some DErr.extUnmarshal }
      | .ok ex =>
        match metadata.get? BlockMetadataIndex_TRANSACTIONS_FILTER with
        | none => .error GPanic.indexOutOfRange
        | some txsFltr =>
          match txsFltr.get? idx with
          | none => .error GPanic.indexOutOfRange
          | some fb =>
            match metadata.get? 2 with
            | none => .error GPanic.indexOutOfRange
            | some st =>
              match st.get? idx with
              | none => .error GPanic.indexOutOfRange
              | some sb =>
                if header.type = HeaderType_ENDORSER_TRANSACTION then
                  decodeStage6 (stage5Record err2 blockNum idx header ex fb sb) payload.data
                else
                  .ok (stage5Record err2 blockNum idx header ex fb sb)

/-- DecodeEventBlock of src/event.go (lines 139-227).  Stage 1 failure
returns at once with only the error set; stage 2 failure records the error
but falls through (line 149-151 has no return), continuing with the residual
payload the failed unmarshal left. -/
def DecodeEventBlock (pl : PB Envelope) (blockNum : Nat) (idx : Nat)
    (metadata : List (List Nat)) : Except GPanic BlockEventResponse :=
  match pl with
  | .fail _ => .ok { error := some DErr.envUnmarshal }
  | .ok envelope =>
    match envelope.payload with
    | .ok p => afterEnvelope none p blockNum idx metadata
    | .fail p => afterEnvelope (some DErr.payloadUnmarshal) p blockNum idx metadata

/-- common.BlockHeader: field Number consumed via
`in.GetBlock().GetHeader().Number`; the getter is nil-safe but the `.Number`
selector is not, so the header pointer is modelled with `Option`. -/
structure BlockHeader where
  number : Nat := 0
deriving DecidableEq

/-- common.Block as consumed by readBlock: `Metadata` and `Data` are pointer
fields whose inner slices are read through unchecked selectors
(`.Metadata.Metadata`, `.Data.Data`), so each is an `Option` of the slice. -/
structure Block where
  header : Option BlockHeader := none
  metadata : Option (List (List Nat)) := none
  data : Option (List (PB Envelope)) := none
deriving DecidableEq

/-- The inbound stream message `in.Event`: only the `*peer.Event_Block`
variant is interpreted; every other variant falls through the switch. -/
inductive Event where
  | block : Block → Event
  | other : Event
deriving DecidableEq

/-- How the stream of `Recv` calls ends after the listed messages: clean
end-of-input (`io.EOF`) or any other receive error. -/
inductive StreamEnd where
  | eof
  | recvErr
deriving DecidableEq

/-- What the readBlock goroutine did: the records sent to the response
channel in order, whether it died in a panic, and whether `disconnect`
(CloseSend + connection Close) ran. -/
structure ReadOutcome where
  records : List BlockEventResponse
  panicked : Option GPanic
  closed : Bool
deriving DecidableEq

/-- The inner loop of readBlock (line 131-133): decode each entry of
`in.GetBlock().Data.Data` in order at its position, reading
`in.GetBlock().GetHeader().Number` afresh each iteration (so a nil header
only panics once there is an entry).  A panic stops the loop; records
already sent stay sent. -/
def decodeEntries (hdr : Option BlockHeader) (meta : List (List Nat)) :
    List (PB Envelope) → Nat → List BlockEventResponse × Option GPanic
  | [], _ => ([], none)
  | bd :: rest, i =>
    match hdr with
    | none => ([], some GPanic.nilDeref)
    | some h =>
      match DecodeEventBlock bd h.number i meta with
      | .error g => ([], some g)
      | .ok r =>
        let out := decodeEntries hdr meta rest (i + 1)
        (r :: out.1, out.2)

/-- Processing of one Block message (lines 130-133): read
`Metadata.Metadata` (nil-pointer panic if the metadata pointer is nil), then
iterate over `Data.Data` (panic if the data pointer is nil). -/
def processBlock (b : Block) : List BlockEventResponse × Option GPanic :=
  match b.metadata with
  | none => ([], some GPanic.nilDeref)
  | some meta =>
    match b.data with
    | none => ([], some GPanic.nilDeref)
    | some entries => decodeEntries b.header meta entries 0

/-- readBlock of src/event.go (lines 115-137), with the sequence of received
messages and the terminal Recv outcome as input.  io.EOF disconnects and
returns silently; any other Recv error sends one record holding only the
error, disconnects and returns; a decode panic kills the goroutine without
disconnecting. -/
def readBlock : List Event → StreamEnd → ReadOutcome
  | [], .eof => { records := [], panicked := none, closed := true }
  | [], .recvErr =>
    { records := [{ error := some DErr.streamRecv }], panicked := none, closed := true }
  | ev :: rest, ending =>
    match ev with
    | .other => readBlock rest ending
    | .block b =>
      let out := processBlock b
      match out.2 with
      | some g => { records := out.1, panicked := some g, closed := false }
      | none =>
        let tail := readBlock rest ending
        { records := out.1 ++ tail.records, panicked := tail.panicked, closed := tail.closed }

/-- The transmitted registration message peer.SignedEvent (fields EventBytes
and Signature). -/
structure SignedEvent where
  eventBytes : List Nat
  signature : List Nat
deriving DecidableEq

/-- External effects used by register, passed as an explicit environment:
`marshalCreator` is proto.Marshal of the msp.SerializedIdentity built at
lines 69-71; `marshalInterest` is proto.Marshal of the whole-block interest
peer.Event built at lines 76-79, as a function of the creator bytes embedded
in it; `sign` is crypto.Sign with the identity's private key fixed; `send`
is e.client.Send.  Go error values are opaque; they are modelled as `Nat`
so that propagating the same error is observable. -/
structure RegisterEnv where
  marshalCreator : Except Nat (List Nat)
  marshalInterest : List Nat → Except Nat (List Nat)
  sign : List Nat → Except Nat (List Nat)
  send : SignedEvent → Except Nat Unit

/-- register of src/event.go (lines 68-94).  A successful run returns the
SignedEvent that was handed to Send; any failed step returns its error. -/
def register (env : RegisterEnv) : Except Nat SignedEvent :=
  match env.marshalCreator with
  | .error e => .error e
  | .ok creator =>
    match env.marshalInterest creator with
    | .error e => .error e
    | .ok evtBytes =>
      match env.sign evtBytes with
      | .error e => .error e
      | .ok sb =>
        let sigEvent : SignedEvent := { eventBytes := evtBytes, signature := sb }
        match env.send sigEvent with
        | .error e => .error e
        | .ok _ => .ok sigEvent

/-- newEventListener of src/event.go (lines 101-113): connect, then
register, each returning its error synchronously; only when both succeed is
the readBlock goroutine started.  The `ok` result carries what that
goroutine does with the given stream; an `error` result means it never ran,
so no record is ever delivered. -/
def newEventListener (connectRes : Except Nat Unit) (renv : RegisterEnv)
    (msgs : List Event) (ending : StreamEnd) : Except Nat ReadOutcome :=
  match connectRes with
  | .error e => .error e
  | .ok _ =>
    match register renv with
    | .error e => .error e
    | .ok _ => .ok (readBlock msgs ending)

/-- The error tags the spec calls outer-stage failures: envelope, channel
header or header extension unparseable (stage 2, the payload, aborts
nothing and is classified by the spec as neither). -/
def outerTag : DErr → Bool
  | .envUnmarshal => true
  | .headerUnmarshal => true
  | .extUnmarshal => true
  | _ => false

/-- The error tags the spec calls inner-stage failures: every unmarshal of
the endorser-transaction detail pipeline (stage 6). -/
def innerTag : DErr → Bool
  | .txUnmarshal => true
  | .capUnmarshal => true
  | .proposalUnmarshal => true
  | .invocationUnmarshal => true
  | .proposalRespUnmarshal => true
  | .ccActionUnmarshal => true
  | .ccEventUnmarshal => true
  | _ => false

/-- Written from the spec's ordering sentence, for comparison with
`readBlock`: one decode per transaction-data entry, at the entry's position
and the block's declared number, in entry order. -/
def specEntryRecords (n : Nat) (meta : List (List Nat)) :
    List (PB Envelope) → Nat → List BlockEventResponse
  | [], _ => []
  | bd :: rest, i =>
    (match DecodeEventBlock bd n i meta with
      | .ok r => [r]
      | .error _ => []) ++ specEntryRecords n meta rest (i + 1)

/-- Written from the spec's ordering sentence: the records a single inbound
message should contribute (nothing for non-Block messages). -/
def specEventRecords : Event → List BlockEventResponse
  | .other => []
  | .block b =>
    match b.header, b.metadata, b.data with
    | some h, some meta, some ds => specEntryRecords h.number meta ds 0
    | _, _, _ => []

/-- Written from the spec's termination sentences: what the end of the
stream itself should contribute to the record list. -/
def endingRecords : StreamEnd → List BlockEventResponse
  | .eof => []
  | .recvErr => [{ error := some DErr.streamRecv }]

/-- Sample channel header of a well-formed non-endorser transaction. -/
def sampleChannelHeader : ChannelHeader :=
  { type := 0, txId := "t1", channelId := "ch" }

def sampleHeader : Header := { channelHeader := .ok sampleChannelHeader }

def samplePayload : Payload := { header := some sampleHeader, data := .ok {} }

def sampleEnvelope : Envelope := { payload := .ok samplePayload }

/-- Sample envelope: a well-formed non-endorser transaction. -/
def sampleEnv : PB Envelope := .ok sampleEnvelope

/-- The record `sampleEnv` decodes to at height 5, index 0, flag byte 0. -/
def sampleRecord : BlockEventResponse :=
  { error := none, isVaild := true, blockHeight := 5, txIndex := 0,
    txID := "t1", channelName := "ch", status := 0 }

/-- The record `sampleEnv` decodes to at height 8, index 0, flag byte 1. -/
def sampleRecordInvalid : BlockEventResponse :=
  { error := none, isVaild := false, blockHeight := 8, txIndex := 0,
    txID := "t1", channelName := "ch", status := 1 }

/-- Sample block holding `sampleEnv`, used to exercise the stream reader. -/
def sampleBlock : Block :=
  { header := some { number := 5 }, metadata := some [[], [], [0]], data := some [sampleEnv] }

/-- Sample endorser transaction whose decoded Transaction has zero actions:
stage 6 then evaluates `tx.Actions[0]` on an empty slice. -/
def zeroActionsEnv : PB Envelope :=
  .ok { payload := .ok {
    header := some { channelHeader := .ok { type := 3, txId := "t0", channelId := "ch" } },
    data := .ok { actions := [] } } }

/-- Sample block holding the zero-actions transaction. -/
def zeroActionsBlock : Block :=
  { header := some { number := 1 }, metadata := some [[], [], [0]],
    data := some [zeroActionsEnv] }

/-- Sample block with declared number 7 whose single entry is a corrupt
envelope (stage-1 unmarshal failure). -/
def corruptEntryBlock : Block :=
  { header := some { number := 7 }, metadata := some [[], [], [0]],
    data := some [.fail {}] }

/-- Sample endorser transaction whose first action's payload fails to
unmarshal (an inner, stage-6 failure). -/
def innerFailChannelHeader : ChannelHeader :=
  { type := 3, txId := "t9", channelId := "chan9",
    extension := .ok { chaincodeId := some { name := "cc", version := "v1" } } }

def innerFailEnvelope : Envelope :=
  { payload := .ok {
      header := some { channelHeader := .ok innerFailChannelHeader },
      data := .ok { actions := [{ payload := .fail {} }] } } }

def innerFailEnv : PB Envelope := .ok innerFailEnvelope

/-- The record `innerFailEnv` decodes to at height 3, index 0, flag byte 0:
the stage-5 identification survives the inner failure. -/
def innerFailRecord : BlockEventResponse :=
  { error := some DErr.capUnmarshal, isVaild := true, blockHeight := 3, txIndex := 0,
    txID := "t9", channelName := "chan9", chainCodeName := "cc",
    chainCodeVersion := "v1", status := 0 }

/-- Components of a sample endorser transaction for which every stage-6
unmarshal succeeds while the chaincode emitted no event (the Events bytes
parse to the zero ChaincodeEvent). -/
def fullSuccessCa : ChaincodeAction := { events := .ok {} }

def fullSuccessPrp : ProposalResponsePayload := { extension := .ok fullSuccessCa }

def fullSuccessAct : ChaincodeEndorsedAction :=
  { proposalResponsePayload := .ok fullSuccessPrp }

def fullSuccessInp : ChaincodeInput := { args := [[97], [98]] }

def fullSuccessCs : ChaincodeSpec := { input := some fullSuccessInp }

def fullSuccessCis : ChaincodeInvocationSpec := { chaincodeSpec := some fullSuccessCs }

def fullSuccessCpp : ChaincodeProposalPayload := { input := .ok fullSuccessCis }

def fullSuccessCap : ChaincodeActionPayload :=
  { chaincodeProposalPayload := .ok fullSuccessCpp, action := some fullSuccessAct }

def fullSuccessAction : TransactionAction := { payload := .ok fullSuccessCap }

def fullSuccessTx : Transaction := { actions := [fullSuccessAction] }

def fullSuccessChannelHeader : ChannelHeader :=
  { type := 3, txId := "t2", channelId := "ch2" }

def fullSuccessHeader : Header := { channelHeader := .ok fullSuccessChannelHeader }

def fullSuccessPayload : Payload :=
  { header := some fullSuccessHeader, data := .ok fullSuccessTx }

def fullSuccessEnvelope : Envelope := { payload := .ok fullSuccessPayload }

def fullSuccessEnv : PB Envelope := .ok fullSuccessEnvelope

/-- Components of a sample stage-2 failure whose residual payload retains a
parseable non-endorser header. -/
def c4ChannelHeader : ChannelHeader := { type := 0, txId := "tx4", channelId := "ch4" }

def c4Header : Header := { channelHeader := .ok c4ChannelHeader }

def c4ResidualPayload : Payload := { header := some c4Header, data := .ok {} }

def c4Envelope : Envelope := { payload := .fail c4ResidualPayload }

/-- Sample registration environment whose marshalling, signing and sending
all succeed. -/
def sampleRegisterEnv : RegisterEnv :=
  { marshalCreator := .ok [1]
    marshalInterest := fun c => .ok (c ++ [2])
    sign := fun b => .ok (b ++ [9])
    send := fun _ => .ok () }


theorem decodeStage6_ok (resp : BlockEventResponse) (pd : PB Transaction)
    (r : BlockEventResponse) (h : decodeStage6 resp pd = .ok r) :
    r.isVaild = resp.isVaild ∧ r.blockHeight = resp.blockHeight ∧
    r.txIndex = resp.txIndex ∧ r.txID = resp.txID ∧
    r.channelName = resp.channelName ∧ r.chainCodeName = resp.chainCodeName ∧
    r.chainCodeVersion = resp.chainCodeVersion ∧ r.status = resp.status ∧
    (r.error = resp.error ∨ ∃ e, innerTag e = true ∧ r.error = some e) := by
  unfold decodeStage6 at h
  repeat' split at h
  all_goals cases h
  all_goals simp [innerTag]

theorem afterEnvelope_ok (err2 : Option DErr) (payload : Payload) (n i : Nat)
    (m : List (List Nat)) (r : BlockEventResponse)
    (hok : afterEnvelope err2 payload n i m = .ok r) :
    (∃ hdr resid, payload.header = some hdr ∧ hdr.channelHeader = .fail resid ∧
      r = { error := some DErr.headerUnmarshal }) ∨
    (∃ hdr ch resid, payload.header = some hdr ∧ hdr.channelHeader = .ok ch ∧
      ch.extension = .fail resid ∧ r = { error := some DErr.extUnmarshal }) ∨
    ∃ hdr ch ex flags fb,
      payload.header = some hdr ∧ hdr.channelHeader = .ok ch ∧
      ch.extension = .ok ex ∧
      m.get? BlockMetadataIndex_TRANSACTIONS_FILTER = some flags ∧
      flags.get? i = some fb ∧
      ((ch.type = HeaderType_ENDORSER_TRANSACTION ∧
          decodeStage6 (stage5Record err2 n i ch ex fb fb) payload.data = .ok r) ∨
        (ch.type ≠ HeaderType_ENDORSER_TRANSACTION ∧
          r = stage5Record err2 n i ch ex fb fb)) := by
  unfold afterEnvelope at hok
  repeat' split at hok
  all_goals first
    | (cases hok)
    | skip
  all_goals simp_all [BlockMetadataIndex_TRANSACTIONS_FILTER]

theorem innerTag_not_outerTag (e : DErr) (h : innerTag e = true) : outerTag e = false := by
  cases e <;> simp_all [innerTag, outerTag]

theorem C2_aux (err2 : Option DErr) (p : Payload) (n i : Nat) (m : List (List Nat))
    (r : BlockEventResponse) (e : DErr)
    (herr2 : err2 = none ∨ err2 = some DErr.payloadUnmarshal)
    (hok : afterEnvelope err2 p n i m = .ok r) (he : r.error = some e) :
    (outerTag e = true → r = { error := some e }) ∧
    (innerTag e = true → ∃ hdr ch ex flags fb,
      p.header = some hdr ∧ hdr.channelHeader = .ok ch ∧ ch.extension = .ok ex ∧
      m.get? BlockMetadataIndex_TRANSACTIONS_FILTER = some flags ∧
      flags.get? i = some fb ∧
      r.blockHeight = n ∧ r.txIndex = i ∧ r.txID = ch.txId ∧
      r.channelName = ch.channelId ∧
      r.isVaild = (fb == 0) ∧ r.status = Int.ofNat fb ∧
      (∀ cid, ex.chaincodeId = some cid →
        r.chainCodeName = cid.name ∧ r.chainCodeVersion = cid.version)) := by
  rcases afterEnvelope_ok err2 p n i m r hok with ⟨hdr, resid, hh, hch, hcase⟩ |
    ⟨hdr, ch, resid, hh, hch, hex, hcase⟩ | hcase
  · subst hcase
    simp only [BlockEventResponse.error] at he
    cases he
    constructor
    · intro _; rfl
    · intro hbad; simp [innerTag] at hbad
  · subst hcase
    simp only [BlockEventResponse.error] at he
    cases he
    constructor
    · intro _; rfl
    · intro hbad; simp [innerTag] at hbad
  · obtain ⟨hdr, ch, ex, flags, fb, hh, hch, hex, hm, hf, hrest⟩ := hcase
    rcases hrest with ⟨htype, h6⟩ | ⟨htype, hr⟩
    · have h6f := decodeStage6_ok _ _ _ h6
      obtain ⟨hiv, hbh, hti, htx, hcn, hccn, hccv, hst, horig⟩ := h6f
      rcases horig with horig | ⟨e', hinner', heq'⟩
      · rw [he] at horig
        simp [stage5Record] at horig
        rcases herr2 with h2 | h2 <;> rw [h2] at horig
        · simp at horig
        · cases horig
          constructor
          · intro hbad; simp [outerTag] at hbad
          · intro hbad; simp [innerTag] at hbad
      · rw [he] at heq'
        cases heq'
        constructor
        · intro hbad
          rw [innerTag_not_outerTag _ hinner'] at hbad
          cases hbad
        · intro _
          refine ⟨hdr, ch, ex, flags, fb, hh, hch, hex, hm, hf, ?_, ?_, ?_, ?_, ?_, ?_, ?_⟩
          · rw [hbh]; simp [stage5Record]
          · rw [hti]; simp [stage5Record]
          · rw [htx]; simp [stage5Record]
          · rw [hcn]; simp [stage5Record]
          · rw [hiv]; simp [stage5Record]
          · rw [hst]; simp [stage5Record]
          · intro cid hcid
            rw [hccn, hccv]
            simp [stage5Record, hcid]
    · subst hr
      simp [stage5Record] at he
      rcases herr2 with h2 | h2 <;> rw [h2] at he
      · simp at he
      · cases he
        constructor
        · intro hbad; simp [outerTag] at hbad
        · intro hbad; simp [innerTag] at hbad

theorem decode_height_index (pl : PB Envelope) (n i : Nat) (m : List (List Nat))
    (r : BlockEventResponse) (hok : DecodeEventBlock pl n i m = .ok r)
    (hnone : r.error = none) : r.blockHeight = n ∧ r.txIndex = i := by
  unfold DecodeEventBlock at hok
  split at hok
  · cases hok
    simp at hnone
  next envlp =>
    split at hok
    all_goals
      rcases afterEnvelope_ok _ _ _ _ _ _ hok with ⟨hdr, resid, hh, hch, hcase⟩ |
        ⟨hdr, ch, resid, hh, hch, hex, hcase⟩ | hcase
    all_goals try (subst hcase; simp at hnone)
    all_goals obtain ⟨hdr, ch, ex, flags, fb, hh, hch, hex, hm, hf, hrest⟩ := hcase
    all_goals rcases hrest with ⟨htype, h6⟩ | ⟨htype, hr⟩
    all_goals try
      first
      | (have h6f := decodeStage6_ok _ _ _ h6
         exact ⟨by rw [h6f.2.1]; simp [stage5Record],
           by rw [h6f.2.2.1]; simp [stage5Record]⟩)
      | (subst hr
         exact ⟨by simp [stage5Record], by simp [stage5Record]⟩)


/-- C2: if the returned record's error comes from an outer stage (envelope,
channel header or header extension unparseable) all downstream fields are
the zero values; if it comes from an inner stage (any unmarshal of the
endorser-transaction detail), the identification fields of stage 5 remain
populated: blockHeight, txIndex, txId, channelName, the chaincode name and
version when the extension carries one, statusCode and isValid. -/
theorem C2_error_stage_invariant (pl : PB Envelope) (n i : Nat)
    (m : List (List Nat)) (r : BlockEventResponse) (e : DErr)
    (hok : DecodeEventBlock pl n i m = .ok r) (he : r.error = some e) :
    (outerTag e = true → r = { error := some e }) ∧
    (innerTag e = true → ∃ env p hdr ch ex flags fb,
      pl = .ok env ∧ (env.payload = .ok p ∨ env.payload = .fail p) ∧
      p.header = some hdr ∧ hdr.channelHeader = .ok ch ∧ ch.extension = .ok ex ∧
      m.get? BlockMetadataIndex_TRANSACTIONS_FILTER = some flags ∧
      flags.get? i = some fb ∧
      r.blockHeight = n ∧ r.txIndex = i ∧ r.txID = ch.txId ∧
      r.channelName = ch.channelId ∧
      r.isVaild = (fb == 0) ∧ r.status = Int.ofNat fb ∧
      (∀ cid, ex.chaincodeId = some cid →
        r.chainCodeName = cid.name ∧ r.chainCodeVersion = cid.version)) := by
  unfold DecodeEventBlock at hok
  split at hok
  · cases hok
    simp only [BlockEventResponse.error] at he
    cases he
    constructor
    · intro _; rfl
    · intro hbad; simp [innerTag] at hbad
  next envlp =>
    split at hok
    next p hp =>
      have haux := C2_aux none p n i m r e (Or.inl rfl) hok he
      refine ⟨haux.1, fun hin => ?_⟩
      obtain ⟨hdr, ch, ex, flags, fb, rest⟩ := haux.2 hin
      exact ⟨envlp, p, hdr, ch, ex, flags, fb, rfl, Or.inl hp, rest⟩
    next p hp =>
      have haux := C2_aux (some DErr.payloadUnmarshal) p n i m r e (Or.inr rfl) hok he
      refine ⟨haux.1, fun hin => ?_⟩
      obtain ⟨hdr, ch, ex, flags, fb, rest⟩ := haux.2 hin
      exact ⟨envlp, p, hdr, ch, ex, flags, fb, rfl, Or.inr hp, rest⟩


theorem decode_stage5_eval (envlp : Envelope) (p : Payload) (err2 : Option DErr)
    (hdr : Header) (ch : ChannelHeader) (ex : ChaincodeHeaderExtension)
    (n i : Nat) (m : List (List Nat)) (flags : List Nat) (fb : Nat)
    (hp : envlp.payload = .ok p ∧ err2 = none ∨
      envlp.payload = .fail p ∧ err2 = some DErr.payloadUnmarshal)
    (hh : p.header = some hdr) (hch : hdr.channelHeader = .ok ch)
    (hex : ch.extension = .ok ex)
    (hm : m.get? BlockMetadataIndex_TRANSACTIONS_FILTER = some flags)
    (hf : flags.get? i = some fb) :
    DecodeEventBlock (.ok envlp) n i m =
      (if ch.type = HeaderType_ENDORSER_TRANSACTION
        then decodeStage6 (stage5Record err2 n i ch ex fb fb) p.data
        else .ok (stage5Record err2 n i ch ex fb fb)) := by
  have hm2 : m.get? 2 = some flags := by
    simpa [BlockMetadataIndex_TRANSACTIONS_FILTER] using hm
  rcases hp with ⟨hp, h2⟩ | ⟨hp, h2⟩ <;> subst h2 <;>
    simp only [DecodeEventBlock, hp] <;>
    simp only [afterEnvelope, hh, hch, hex, hm, hm2, hf]

/-- C3: for every decoded transaction i whose validation-flags array covers
index i and which reaches the base-field stage, isValid reflects exactly the
validation-flag byte at position i of the transaction-validation-flags
metadata array: true precisely when that byte is TxValidationCode_VALID. -/
theorem C3_isvalid_from_flags (envlp : Envelope) (p : Payload) (hdr : Header)
    (ch : ChannelHeader) (ex : ChaincodeHeaderExtension) (n i : Nat)
    (m : List (List Nat)) (flags : List Nat) (fb : Nat) (r : BlockEventResponse)
    (hp : envlp.payload = .ok p ∨ envlp.payload = .fail p)
    (hh : p.header = some hdr) (hch : hdr.channelHeader = .ok ch)
    (hex : ch.extension = .ok ex)
    (hm : m.get? BlockMetadataIndex_TRANSACTIONS_FILTER = some flags)
    (hf : flags.get? i = some fb)
    (hok : DecodeEventBlock (.ok envlp) n i m = .ok r) :
    r.isVaild = (fb == 0) := by
  have key : ∀ err2 : Option DErr,
      DecodeEventBlock (.ok envlp) n i m =
        (if ch.type = HeaderType_ENDORSER_TRANSACTION
          then decodeStage6 (stage5Record err2 n i ch ex fb fb) p.data
          else .ok (stage5Record err2 n i ch ex fb fb)) →
      r.isVaild = (fb == 0) := by
    intro err2 heval
    rw [heval] at hok
    split at hok
    · have h6f := decodeStage6_ok _ _ _ hok
      rw [h6f.1]
      simp [stage5Record]
    · cases hok
      simp [stage5Record]
  rcases hp with hp | hp
  · exact key none (decode_stage5_eval envlp p none hdr ch ex n i m flags fb
      (Or.inl ⟨hp, rfl⟩) hh hch hex hm hf)
  · exact key (some DErr.payloadUnmarshal)
      (decode_stage5_eval envlp p (some DErr.payloadUnmarshal) hdr ch ex n i m flags fb
        (Or.inr ⟨hp, rfl⟩) hh hch hex hm hf)


/-- C9: Status is read from metadata index 2, which is the very index the
TRANSACTIONS_FILTER constant denotes, so for every decode that reaches the
base-field stage statusCode equals the validation-flag byte at txIndex and
isValid holds exactly when statusCode is 0; the two are never independent. -/
theorem C9_status_equals_flag (envlp : Envelope) (p : Payload) (hdr : Header)
    (ch : ChannelHeader) (ex : ChaincodeHeaderExtension) (n i : Nat)
    (m : List (List Nat)) (flags : List Nat) (fb : Nat) (r : BlockEventResponse)
    (hp : envlp.payload = .ok p ∨ envlp.payload = .fail p)
    (hh : p.header = some hdr) (hch : hdr.channelHeader = .ok ch)
    (hex : ch.extension = .ok ex)
    (hm : m.get? 2 = some flags)
    (hf : flags.get? i = some fb)
    (hok : DecodeEventBlock (.ok envlp) n i m = .ok r) :
    BlockMetadataIndex_TRANSACTIONS_FILTER = 2 ∧
    r.status = Int.ofNat fb ∧ (r.isVaild = true ↔ r.status = 0) := by
  have hm' : m.get? BlockMetadataIndex_TRANSACTIONS_FILTER = some flags := by
    simpa [BlockMetadataIndex_TRANSACTIONS_FILTER] using hm
  have key : ∀ err2 : Option DErr,
      DecodeEventBlock (.ok envlp) n i m =
        (if ch.type = HeaderType_ENDORSER_TRANSACTION
          then decodeStage6 (stage5Record err2 n i ch ex fb fb) p.data
          else .ok (stage5Record err2 n i ch ex fb fb)) →
      r.status = Int.ofNat fb ∧ r.isVaild = (fb == 0) := by
    intro err2 heval
    rw [heval] at hok
    split at hok
    · have h6f := decodeStage6_ok _ _ _ hok
      rw [h6f.1, h6f.2.2.2.2.2.2.2.1]
      simp [stage5Record]
    · cases hok
      simp [stage5Record]
  have hsv : r.status = Int.ofNat fb ∧ r.isVaild = (fb == 0) := by
    rcases hp with hp | hp
    · exact key none (decode_stage5_eval envlp p none hdr ch ex n i m flags fb
        (Or.inl ⟨hp, rfl⟩) hh hch hex hm' hf)
    · exact key (some DErr.payloadUnmarshal)
        (decode_stage5_eval envlp p (some DErr.payloadUnmarshal) hdr ch ex n i m flags fb
          (Or.inr ⟨hp, rfl⟩) hh hch hex hm' hf)
  refine ⟨rfl, hsv.1, ?_⟩
  rw [hsv.1, hsv.2]
  constructor
  · intro hbeq
    have : fb = 0 := by simpa using hbeq
    simp [this]
  · intro hz
    have : fb = 0 := by
      have := Int.ofNat_eq_zero.mp hz
      simpa using this
    simp [this]

/-- C10: when every stage-6 unmarshal of an endorser transaction succeeds,
the returned record's events list holds exactly one entry (the nil check on
the freshly allocated event is always true), even when the transaction
emitted no chaincode event, in which case the entry has empty name and
empty payload. -/
theorem C10_single_event (envlp : Envelope) (p : Payload) (hdr : Header)
    (ch : ChannelHeader) (ex : ChaincodeHeaderExtension) (n i : Nat)
    (m : List (List Nat)) (flags : List Nat) (fb : Nat)
    (tx : Transaction) (a0 : TransactionAction) (rest : List TransactionAction)
    (cap : ChaincodeActionPayload) (cpp : ChaincodeProposalPayload)
    (cis : ChaincodeInvocationSpec) (cs : ChaincodeSpec) (inp : ChaincodeInput)
    (act : ChaincodeEndorsedAction) (prp : ProposalResponsePayload)
    (ca : ChaincodeAction) (ev : ChaincodeEvent)
    (hp : envlp.payload = .ok p)
    (hh : p.header = some hdr) (hch : hdr.channelHeader = .ok ch)
    (htype : ch.type = HeaderType_ENDORSER_TRANSACTION)
    (hex : ch.extension = .ok ex)
    (hm : m.get? BlockMetadataIndex_TRANSACTIONS_FILTER = some flags)
    (hf : flags.get? i = some fb)
    (hd : p.data = .ok tx) (hacts : tx.actions = a0 :: rest)
    (ha0 : a0.payload = .ok cap)
    (hcpp : cap.chaincodeProposalPayload = .ok cpp)
    (hcis : cpp.input = .ok cis)
    (hcs : cis.chaincodeSpec = some cs) (hinp : cs.input = some inp)
    (hact : cap.action = some act)
    (hprp : act.proposalResponsePayload = .ok prp)
    (hca : prp.extension = .ok ca)
    (hev : ca.events = .ok ev) :
    ∃ r, DecodeEventBlock (.ok envlp) n i m = .ok r ∧
      r.ccEvents = [{ eventName := ev.eventName, eventPayload := ev.payload }] ∧
      r.ccEvents.length = 1 := by
  have heval := decode_stage5_eval envlp p none hdr ch ex n i m flags fb
    (Or.inl ⟨hp, rfl⟩) hh hch hex hm hf
  rw [heval, if_pos htype, hd]
  refine ⟨{ stage5Record none n i ch ex fb fb with
      chainCodeInput := inp.args,
      ccEvents := [{ eventName := ev.eventName, eventPayload := ev.payload }] },
    ?_, rfl, rfl⟩
  simp only [decodeStage6, hacts, ha0, hcpp, hcis, hcs, hinp, hact, hprp, hca, hev,
    Option.bind]
  simp [stage5Record]


/-- C1 evidence: an endorser transaction that decodes to zero actions makes
DecodeEventBlock evaluate tx.Actions[0] on an empty slice, an unchecked
index access that panics (killing the reader goroutine) instead of
returning a record with a reported data-shape error. -/
theorem C1_zero_actions_panics :
    DecodeEventBlock zeroActionsEnv 1 0 [[], [], [0]] =
      .error GPanic.indexOutOfRange := rfl

/-- C4 counterexample: an envelope that unmarshals while its payload bytes
fail (leaving the empty payload the claim itself describes) does not return
a record at all: stage 3 dereferences the nil header of the empty payload
and the decoder panics. -/
theorem C4_counterexample :
    DecodeEventBlock (.ok { payload := .fail {} }) 0 0 [[], [], [0]] =
      .error GPanic.nilDeref := rfl

/-- C4 amended: a stage-2 failure records the error and control falls
through without aborting, but with the empty residual payload stage 3
nil-panics, so no record is returned; a record carrying the stage-2 error
is returned only when the residual payload retains a parseable header
(shown here for a non-endorser header type). -/
theorem C4_stage2_fallthrough (envlp : Envelope) (p : Payload) (n i : Nat)
    (m : List (List Nat)) (hp : envlp.payload = .fail p) :
    (p.header = none →
      DecodeEventBlock (.ok envlp) n i m = .error GPanic.nilDeref) ∧
    (∀ hdr ch ex flags fb, p.header = some hdr → hdr.channelHeader = .ok ch →
      ch.extension = .ok ex →
      m.get? BlockMetadataIndex_TRANSACTIONS_FILTER = some flags →
      flags.get? i = some fb → ch.type ≠ HeaderType_ENDORSER_TRANSACTION →
      DecodeEventBlock (.ok envlp) n i m =
        .ok (stage5Record (some DErr.payloadUnmarshal) n i ch ex fb fb) ∧
      (stage5Record (some DErr.payloadUnmarshal) n i ch ex fb fb).error =
        some DErr.payloadUnmarshal) := by
  constructor
  · intro hnone
    simp only [DecodeEventBlock, hp]
    simp only [afterEnvelope, hnone]
  · intro hdr ch ex flags fb hh hch hex hm hf htype
    have heval := decode_stage5_eval envlp p (some DErr.payloadUnmarshal) hdr ch ex
      n i m flags fb (Or.inr ⟨hp, rfl⟩) hh hch hex hm hf
    rw [heval, if_neg htype]
    exact ⟨rfl, rfl⟩

/-- C4 witness: the amended statement instantiated at a residual payload
that retains a parseable non-endorser header. -/
theorem C4_stage2_fallthrough_witness :
    c4Envelope.payload = .fail c4ResidualPayload ∧
    DecodeEventBlock (.ok c4Envelope) 0 0 [[], [], [0]] =
      .ok (stage5Record (some DErr.payloadUnmarshal) 0 0 c4ChannelHeader {} 0 0) ∧
    (stage5Record (some DErr.payloadUnmarshal) 0 0 c4ChannelHeader {} 0 0).error =
      some DErr.payloadUnmarshal :=
  ⟨rfl, (C4_stage2_fallthrough c4Envelope c4ResidualPayload 0 0 [[], [], [0]] rfl).2
    c4Header c4ChannelHeader {} [0] 0 rfl rfl rfl rfl rfl (by decide)⟩

/-- C7: whenever register succeeds, the byte string handed to crypto.Sign is
exactly the byte string transmitted as EventBytes in the SignedEvent, and
the transmitted Signature is what Sign returned for those bytes. -/
theorem C7_signed_bytes_transmitted (env : RegisterEnv) (se : SignedEvent)
    (hok : register env = .ok se) :
    env.sign se.eventBytes = .ok se.signature ∧
    ∃ creator, env.marshalCreator = .ok creator ∧
      env.marshalInterest creator = .ok se.eventBytes := by
  unfold register at hok
  cases hc : env.marshalCreator with
  | error e => simp [hc] at hok
  | ok creator =>
    simp only [hc] at hok
    cases hi : env.marshalInterest creator with
    | error e => simp [hi] at hok
    | ok evtBytes =>
      simp only [hi] at hok
      cases hs : env.sign evtBytes with
      | error e => simp [hs] at hok
      | ok sb =>
        simp only [hs] at hok
        cases hsend : env.send { eventBytes := evtBytes, signature := sb } with
        | error e => simp [hsend] at hok
        | ok u =>
          simp only [hsend] at hok
          cases hok
          exact ⟨hs, creator, rfl, hi⟩

/-- C7 witness: the theorem applied to a concrete successful environment. -/
theorem C7_signed_bytes_transmitted_witness :
    register sampleRegisterEnv = .ok { eventBytes := [1, 2], signature := [1, 2, 9] } ∧
    sampleRegisterEnv.sign [1, 2] = .ok [1, 2, 9] ∧
    ∃ creator, sampleRegisterEnv.marshalCreator = .ok creator ∧
      sampleRegisterEnv.marshalInterest creator = .ok [1, 2] :=
  ⟨rfl, C7_signed_bytes_transmitted sampleRegisterEnv
    { eventBytes := [1, 2], signature := [1, 2, 9] } rfl⟩

/-- C8: a connection failure, or a registration failure after a successful
connection, makes newEventListener return that error synchronously; the
reader goroutine never starts, so no record is ever delivered, whatever the
stream would have carried. -/
theorem C8_sync_failure_no_records (c : Except Nat Unit) (renv : RegisterEnv)
    (e : Nat) (msgs : List Event) (ending : StreamEnd)
    (h : c = .error e ∨ (c = .ok () ∧ register renv = .error e)) :
    newEventListener c renv msgs ending = .error e ∧
    ∀ out, newEventListener c renv msgs ending ≠ .ok out := by
  have hmain : newEventListener c renv msgs ending = .error e := by
    rcases h with h | ⟨hc, hr⟩
    · subst h; rfl
    · subst hc
      simp [newEventListener, hr]
  refine ⟨hmain, fun out hbad => ?_⟩
  rw [hmain] at hbad
  cases hbad

/-- C8 witness: the theorem applied to a failing dial. -/
theorem C8_sync_failure_no_records_witness :
    ((.error 5 : Except Nat Unit) = .error 5 ∨
      ((.error 5 : Except Nat Unit) = .ok () ∧ register sampleRegisterEnv = .error 5)) ∧
    newEventListener (.error 5) sampleRegisterEnv [] .eof = .error 5 ∧
    ∀ out, newEventListener (.error 5) sampleRegisterEnv [] .eof ≠ .ok out :=
  ⟨Or.inl rfl, C8_sync_failure_no_records (.error 5) sampleRegisterEnv 5 [] .eof (Or.inl rfl)⟩


theorem decodeEntries_spec (h : BlockHeader) (meta : List (List Nat)) :
    ∀ (ds : List (PB Envelope)) (k : Nat),
      (decodeEntries (some h) meta ds k).2 = none →
      (decodeEntries (some h) meta ds k).1 = specEntryRecords h.number meta ds k := by
  intro ds
  induction ds with
  | nil => intro k _; rfl
  | cons bd rest ih =>
    intro k hnp
    simp only [decodeEntries, specEntryRecords] at hnp ⊢
    cases hd : DecodeEventBlock bd h.number k meta with
    | error g => simp [hd] at hnp
    | ok r =>
      simp only [hd] at hnp ⊢
      simp only [List.cons_append, List.nil_append]
      rw [ih (k + 1) hnp]

theorem decodeEntries_get (h : BlockHeader) (meta : List (List Nat)) :
    ∀ (ds : List (PB Envelope)) (k : Nat),
      (decodeEntries (some h) meta ds k).2 = none →
      (specEntryRecords h.number meta ds k).length = ds.length ∧
      ∀ j, (hj : j < ds.length) → ∃ r,
        DecodeEventBlock (ds.get ⟨j, hj⟩) h.number (k + j) meta = .ok r ∧
        (specEntryRecords h.number meta ds k).get? j = some r := by
  intro ds
  induction ds with
  | nil =>
    intro k _
    exact ⟨rfl, fun j hj => absurd hj (by simp)⟩
  | cons bd rest ih =>
    intro k hnp
    simp only [decodeEntries] at hnp
    cases hd : DecodeEventBlock bd h.number k meta with
    | error g => simp [hd] at hnp
    | ok r =>
      simp only [hd] at hnp
      obtain ⟨ihlen, ihget⟩ := ih (k + 1) hnp
      constructor
      · simp [specEntryRecords, hd, ihlen]
      · intro j hj
        cases j with
        | zero =>
          refine ⟨r, by simpa using hd, ?_⟩
          simp [specEntryRecords, hd]
        | succ j' =>
          obtain ⟨r', hr', hg'⟩ := ihget j' (Nat.lt_of_succ_lt_succ hj)
          refine ⟨r', ?_, ?_⟩
          · have : k + (j' + 1) = k + 1 + j' := by omega
            rw [this]
            simpa using hr'
          · simpa [specEntryRecords, hd] using hg'

theorem decodeEntries_none_header (meta : List (List Nat))
    (ds : List (PB Envelope)) (k : Nat)
    (hnp : (decodeEntries none meta ds k).2 = none) : ds = [] := by
  cases ds with
  | nil => rfl
  | cons bd rest => simp [decodeEntries] at hnp

theorem processBlock_spec (b : Block) (hnp : (processBlock b).2 = none) :
    (processBlock b).1 = specEventRecords (Event.block b) := by
  unfold processBlock at hnp ⊢
  cases hm : b.metadata with
  | none => simp [hm] at hnp
  | some meta =>
    simp only [hm] at hnp ⊢
    cases hd : b.data with
    | none => simp [hd] at hnp
    | some ds =>
      simp only [hd] at hnp ⊢
      cases hh : b.header with
      | none =>
        rw [hh] at hnp
        have := decodeEntries_none_header meta ds 0 hnp
        subst this
        simp [specEventRecords, hm, hd, hh, decodeEntries, specEntryRecords]
      | some h =>
        rw [hh] at hnp
        rw [decodeEntries_spec h meta ds 0 hnp]
        simp [specEventRecords, hm, hd, hh]

theorem readBlock_records (msgs : List Event) (ending : StreamEnd)
    (hnp : (readBlock msgs ending).panicked = none) :
    (readBlock msgs ending).records =
      msgs.flatMap specEventRecords ++ endingRecords ending ∧
    ∀ b, Event.block b ∈ msgs → (processBlock b).2 = none := by
  induction msgs with
  | nil =>
    cases ending with
    | eof => exact ⟨rfl, fun b hb => absurd hb (by simp)⟩
    | recvErr => exact ⟨rfl, fun b hb => absurd hb (by simp)⟩
  | cons ev rest ih =>
    cases ev with
    | other =>
      have hnp' : (readBlock rest ending).panicked = none := by
        simpa [readBlock] using hnp
      obtain ⟨ihrec, ihmem⟩ := ih hnp'
      constructor
      · simpa [readBlock, specEventRecords] using ihrec
      · intro b hb
        have : Event.block b ∈ rest := by
          rcases List.mem_cons.mp hb with hbad | hmem
          · cases hbad
          · exact hmem
        exact ihmem b this
    | block b0 =>
      cases ho : (processBlock b0).2 with
      | some g =>
        exfalso
        simp [readBlock, ho] at hnp
      | none =>
        have hnp' : (readBlock rest ending).panicked = none := by
          simpa [readBlock, ho] using hnp
        obtain ⟨ihrec, ihmem⟩ := ih hnp'
        constructor
        · have hrec : (readBlock (Event.block b0 :: rest) ending).records =
              (processBlock b0).1 ++ (readBlock rest ending).records := by
            simp [readBlock, ho]
          rw [hrec, ihrec, processBlock_spec b0 ho]
          simp [List.append_assoc]
        · intro b hb
          rcases List.mem_cons.mp hb with hbeq | hmem
          · cases hbeq
            exact ho
          · exact ihmem b hmem


/-- C5 counterexample: a block declaring header number 7 whose single entry
is a corrupt envelope yields one record whose blockHeight is 0, not the
declared 7 (outer-stage failures never populate identification fields). -/
theorem C5_counterexample :
    (readBlock [Event.block corruptEntryBlock] StreamEnd.eof).records.map
        BlockEventResponse.blockHeight = [0] ∧
    corruptEntryBlock.header = some { number := 7 } ∧ (0 : Nat) ≠ 7 :=
  ⟨rfl, rfl, by decide⟩

/-- C5 amended: provided no entry's decode panics, the reader delivers
exactly one record per transaction-data entry — the decode of that entry at
its position with the block's declared number — in entry order within each
block and in block arrival order, with nothing dropped; blockHeight and
txIndex equal the declared number and the position for records that decode
without error, while outer-stage failures leave those fields zero. -/
theorem C5_ordered_delivery (msgs : List Event) (ending : StreamEnd)
    (hnp : (readBlock msgs ending).panicked = none) :
    (readBlock msgs ending).records =
      msgs.flatMap specEventRecords ++ endingRecords ending ∧
    ∀ b h meta ds, Event.block b ∈ msgs → b.header = some h →
      b.metadata = some meta → b.data = some ds →
      (specEventRecords (Event.block b)).length = ds.length ∧
      ∀ j, (hj : j < ds.length) → ∃ r,
        DecodeEventBlock (ds.get ⟨j, hj⟩) h.number j meta = .ok r ∧
        (specEventRecords (Event.block b)).get? j = some r ∧
        (r.error = none → r.blockHeight = h.number ∧ r.txIndex = j) := by
  obtain ⟨hrec, hmem⟩ := readBlock_records msgs ending hnp
  refine ⟨hrec, ?_⟩
  intro b h meta ds hb hh hm hd
  have hpb := hmem b hb
  have hdec : (decodeEntries (some h) meta ds 0).2 = none := by
    unfold processBlock at hpb
    rw [hm, hd, hh] at hpb
    exact hpb
  have hspec : specEventRecords (Event.block b) = specEntryRecords h.number meta ds 0 := by
    simp [specEventRecords, hh, hm, hd]
  obtain ⟨hlen, hget⟩ := decodeEntries_get h meta ds 0 hdec
  rw [hspec]
  refine ⟨hlen, ?_⟩
  intro j hj
  obtain ⟨r, hr, hg⟩ := hget j hj
  rw [Nat.zero_add] at hr
  exact ⟨r, hr, hg, fun hre => decode_height_index _ _ _ _ _ hr hre⟩

/-- C5 witness: the amended statement instantiated on a one-block stream
holding one well-formed transaction. -/
theorem C5_ordered_delivery_witness :
    (readBlock [Event.block sampleBlock] StreamEnd.eof).panicked = none ∧
    ((readBlock [Event.block sampleBlock] StreamEnd.eof).records =
      [Event.block sampleBlock].flatMap specEventRecords ++ endingRecords StreamEnd.eof ∧
    ∀ b h meta ds, Event.block b ∈ [Event.block sampleBlock] → b.header = some h →
      b.metadata = some meta → b.data = some ds →
      (specEventRecords (Event.block b)).length = ds.length ∧
      ∀ j, (hj : j < ds.length) → ∃ r,
        DecodeEventBlock (ds.get ⟨j, hj⟩) h.number j meta = .ok r ∧
        (specEventRecords (Event.block b)).get? j = some r ∧
        (r.error = none → r.blockHeight = h.number ∧ r.txIndex = j)) :=
  ⟨rfl, C5_ordered_delivery [Event.block sampleBlock] StreamEnd.eof rfl⟩

/-- C6 counterexample: a stream whose block holds a zero-actions endorser
transaction makes the reader loop terminate a third way: it panics without
closing the connection, although the stream ended with clean end-of-input. -/
theorem C6_counterexample :
    (readBlock [Event.block zeroActionsBlock] StreamEnd.eof).closed = false ∧
    (readBlock [Event.block zeroActionsBlock] StreamEnd.eof).panicked =
      some GPanic.indexOutOfRange :=
  ⟨rfl, rfl⟩

/-- C6 amended: provided no decode panics, the loop terminates in exactly
the two stated ways: end-of-input closes the connection with no extra
record, and a transport error appends exactly one record whose only
populated field is the error, closes and terminates; a decode panic is a
third termination that kills the reader without closing the connection. -/
theorem C6_two_terminations (msgs : List Event)
    (hnp : (readBlock msgs StreamEnd.eof).panicked = none) :
    (readBlock msgs StreamEnd.eof).closed = true ∧
    readBlock msgs StreamEnd.recvErr =
      { records := (readBlock msgs StreamEnd.eof).records ++
          [{ error := some DErr.streamRecv }],
        panicked := none, closed := true } := by
  induction msgs with
  | nil => exact ⟨rfl, rfl⟩
  | cons ev rest ih =>
    cases ev with
    | other =>
      have hnp' : (readBlock rest StreamEnd.eof).panicked = none := by
        simpa [readBlock] using hnp
      obtain ⟨ihc, ihr⟩ := ih hnp'
      exact ⟨by simpa [readBlock] using ihc, by simpa [readBlock] using ihr⟩
    | block b0 =>
      cases ho : (processBlock b0).2 with
      | some g =>
        exfalso
        simp [readBlock, ho] at hnp
      | none =>
        have hnp' : (readBlock rest StreamEnd.eof).panicked = none := by
          simpa [readBlock, ho] using hnp
        obtain ⟨ihc, ihr⟩ := ih hnp'
        constructor
        · simpa [readBlock, ho] using ihc
        · simp only [readBlock, ho]
          rw [ihr]
          simp [readBlock, ho, List.append_assoc]

/-- C6 witness: the amended statement instantiated on a one-block stream
holding one well-formed transaction. -/
theorem C6_two_terminations_witness :
    (readBlock [Event.block sampleBlock] StreamEnd.eof).panicked = none ∧
    ((readBlock [Event.block sampleBlock] StreamEnd.eof).closed = true ∧
    readBlock [Event.block sampleBlock] StreamEnd.recvErr =
      { records := (readBlock [Event.block sampleBlock] StreamEnd.eof).records ++
          [{ error := some DErr.streamRecv }],
        panicked := none, closed := true }) :=
  ⟨rfl, C6_two_terminations [Event.block sampleBlock] rfl⟩


/-- C2 witness: the invariant instantiated on an inner (first-action
payload unmarshal) failure, whose record keeps the stage-5 identification. -/
theorem C2_error_stage_invariant_witness :
    DecodeEventBlock innerFailEnv 3 0 [[], [], [0]] = .ok innerFailRecord ∧
    innerFailRecord.error = some DErr.capUnmarshal ∧
    ((outerTag DErr.capUnmarshal = true →
        innerFailRecord = { error := some DErr.capUnmarshal }) ∧
      (innerTag DErr.capUnmarshal = true → ∃ env p hdr ch ex flags fb,
        innerFailEnv = .ok env ∧ (env.payload = .ok p ∨ env.payload = .fail p) ∧
        p.header = some hdr ∧ hdr.channelHeader = .ok ch ∧ ch.extension = .ok ex ∧
        ([[], [], [0]] : List (List Nat)).get? BlockMetadataIndex_TRANSACTIONS_FILTER =
          some flags ∧
        flags.get? 0 = some fb ∧
        innerFailRecord.blockHeight = 3 ∧ innerFailRecord.txIndex = 0 ∧
        innerFailRecord.txID = ch.txId ∧ innerFailRecord.channelName = ch.channelId ∧
        innerFailRecord.isVaild = (fb == 0) ∧ innerFailRecord.status = Int.ofNat fb ∧
        (∀ cid, ex.chaincodeId = some cid →
          innerFailRecord.chainCodeName = cid.name ∧
          innerFailRecord.chainCodeVersion = cid.version))) :=
  ⟨rfl, rfl, C2_error_stage_invariant innerFailEnv 3 0 [[], [], [0]]
    innerFailRecord DErr.capUnmarshal rfl rfl⟩

/-- C3 witness: the flag-byte theorem instantiated on a well-formed
transaction with flag byte 0. -/
theorem C3_isvalid_from_flags_witness :
    (sampleEnvelope.payload = .ok samplePayload ∨
      sampleEnvelope.payload = .fail samplePayload) ∧
    samplePayload.header = some sampleHeader ∧
    sampleHeader.channelHeader = .ok sampleChannelHeader ∧
    sampleChannelHeader.extension = .ok {} ∧
    ([[], [], [0]] : List (List Nat)).get? BlockMetadataIndex_TRANSACTIONS_FILTER =
      some [0] ∧
    ([0] : List Nat).get? 0 = some 0 ∧
    DecodeEventBlock (.ok sampleEnvelope) 5 0 [[], [], [0]] = .ok sampleRecord ∧
    sampleRecord.isVaild = (0 == 0) :=
  ⟨Or.inl rfl, rfl, rfl, rfl, rfl, rfl, rfl,
    C3_isvalid_from_flags sampleEnvelope samplePayload sampleHeader sampleChannelHeader {}
      5 0 [[], [], [0]] [0] 0 sampleRecord (Or.inl rfl) rfl rfl rfl rfl rfl rfl⟩

/-- C9 witness: the coupling of statusCode and isValid instantiated on a
flag byte of 1 (invalid transaction). -/
theorem C9_status_equals_flag_witness :
    DecodeEventBlock (.ok sampleEnvelope) 8 0 [[], [], [1]] = .ok sampleRecordInvalid ∧
    ([[], [], [1]] : List (List Nat)).get? 2 = some [1] ∧
    ([1] : List Nat).get? 0 = some 1 ∧
    (BlockMetadataIndex_TRANSACTIONS_FILTER = 2 ∧
      sampleRecordInvalid.status = Int.ofNat 1 ∧
      (sampleRecordInvalid.isVaild = true ↔ sampleRecordInvalid.status = 0)) :=
  ⟨rfl, rfl, rfl, C9_status_equals_flag sampleEnvelope samplePayload sampleHeader
    sampleChannelHeader {} 8 0 [[], [], [1]] [1] 1 sampleRecordInvalid
    (Or.inl rfl) rfl rfl rfl rfl rfl rfl⟩

/-- C10 witness: a fully successful stage-6 pipeline whose transaction
emitted no chaincode event still yields exactly one event entry, with empty
name and payload. -/
theorem C10_single_event_witness :
    fullSuccessEnvelope.payload = .ok fullSuccessPayload ∧
    fullSuccessChannelHeader.type = HeaderType_ENDORSER_TRANSACTION ∧
    fullSuccessTx.actions = [fullSuccessAction] ∧
    fullSuccessCa.events = .ok {} ∧
    ∃ r, DecodeEventBlock (.ok fullSuccessEnvelope) 2 0 [[], [], [1]] = .ok r ∧
      r.ccEvents = [{ eventName := "", eventPayload := [] }] ∧
      r.ccEvents.length = 1 :=
  ⟨rfl, rfl, rfl, rfl,
    C10_single_event fullSuccessEnvelope fullSuccessPayload fullSuccessHeader
      fullSuccessChannelHeader {} 2 0 [[], [], [1]] [1] 1 fullSuccessTx
      fullSuccessAction [] fullSuccessCap fullSuccessCpp fullSuccessCis fullSuccessCs
      fullSuccessInp fullSuccessAct fullSuccessPrp fullSuccessCa {}
      rfl rfl rfl rfl rfl rfl rfl rfl rfl rfl rfl rfl rfl rfl rfl rfl rfl rfl⟩

end Gohfc
